import Mathlib

/-!
Shallow embedding of the growthbook front-end telemetry module
(`packages/front-end/services/track.ts`) and of the update-experiment API
handler, together with proofs of the specification claims about them.

JS strings are modelled as Lean `String`s (lists of characters, which agrees
with UTF-16 code units on the code points that occur here); JS `substring`
becomes `strTake`/`strDrop`; the literal-substring regexp matches of the
source become `strContains`/`strContainsCI`; `null`/`undefined` fields become
`Option`; JS truthiness of a possibly-missing string becomes `truthyStr`.
The external `md5` library function and the `uuidv4` generator are
parameters of the embedding (an arbitrary hash function, and an arbitrary
stream of fresh tokens indexed by a counter held in the browser state).
Side effects (cookie writes, the fire-and-forget warehouse POST, the
third-party jitsu client) are recorded as an explicit list of `Effect`s.
-/

set_option autoImplicit false

namespace GrowthBook

/-- JS `substring(0, n)` over code units, modelled character-wise. -/
def strTake (s : String) (n : Nat) : String := ⟨s.data.take n⟩

/-- JS `substring(n)` over code units, modelled character-wise. -/
def strDrop (s : String) (n : Nat) : String := ⟨s.data.drop n⟩

/-- Does the character list start with the pattern `pat`? -/
def charsStartWith : List Char → List Char → Bool
  | _, [] => true
  | [], _ :: _ => false
  | c :: cs, p :: ps => (c == p) && charsStartWith cs ps

/-- Does the character list contain `pat` as a contiguous run? -/
def charsContain : List Char → List Char → Bool
  | [], pat => charsStartWith [] pat
  | c :: cs, pat => charsStartWith (c :: cs) pat || charsContain cs pat

/-- Literal-substring containment, modelling a JS regexp literal match such
as `hostname.match(/127\.0\.0\.1/)`. -/
def strContains (s pat : String) : Bool := charsContain s.data pat.data

def lowerChars (l : List Char) : List Char := l.map Char.toLower

/-- Case-insensitive literal-substring containment, modelling a JS regexp
match with the `i` flag. -/
def strContainsCI (s pat : String) : Bool :=
  charsContain (lowerChars s.data) (lowerChars pat.data)

/-- JS truthiness of a string that may be `null`/`undefined`: falsy exactly
when missing or empty. -/
def truthyStr : Option String → Bool
  | none => false
  | some s => s != ""

/-- Result shape of `parseSnapshotDimension` in track.ts. -/
structure SnapshotDimension where
  type : String
  id : String
deriving DecidableEq

/-- Embedding of `parseSnapshotDimension` from track.ts.  `md5` is the
external hash library, passed as a parameter. -/
def parseSnapshotDimension (md5 : String → String) (dimension : String) :
    SnapshotDimension :=
  if dimension = "" then ⟨"none", ""⟩
  else if strTake dimension 4 = "pre:" then ⟨"predefined", strDrop dimension 4⟩
  else if strTake dimension 4 = "exp:" then ⟨"experiment", md5 (strDrop dimension 4)⟩
  else ⟨"user", md5 dimension⟩

/-- JS values that occur in the tracking property bags. -/
inductive JsValue where
  | str : String → JsValue
  | bool : Bool → JsValue
  | undef : JsValue
deriving DecidableEq

/-- Projection of an optional string to a JS value, propagating undefined. -/
def optVal : Option String → JsValue
  | none => JsValue.undef
  | some s => JsValue.str s

/-- Association-list lookup returning the LAST binding for a key, mirroring a
JS object literal where keys written later override an earlier spread. -/
def lookupLast : List (String × JsValue) → String → Option JsValue
  | [], _ => none
  | (k0, v0) :: rest, k =>
    match lookupLast rest k with
    | some v => some v
    | none => if k0 = k then some v0 else none

/-- First-binding association lookup (cookie jar / page-id map read). -/
def assocGet : List (String × String) → String → Option String
  | [], _ => none
  | (k0, v0) :: rest, k => if k0 = k then some v0 else assocGet rest k

/-- Association update (cookie jar / page-id map write). -/
def assocSet : List (String × String) → String → String → List (String × String)
  | [], k, v => [(k, v)]
  | (k0, v0) :: rest, k, v =>
    if k0 = k then (k, v) :: rest else (k0, v0) :: assocSet rest k v

/-- The `location` fields used by track.ts. -/
structure Location where
  protocol : String
  hostname : String
  pathname : String

/-- The fields of `getCurrentUser()` read by `track`; each may be absent. -/
structure CurrentUser where
  id : Option String
  org : Option String
  role : Option String
  effectiveAccountPlan : Option String
  orgCreationDate : Option String

/-- Result of `getGrowthBookBuild()`. -/
structure GrowthBookBuild where
  sha : String
  date : String
  lastVersion : String

/-- Environment-derived toggles and constants imported by track.ts
(`isCloud`, `isTelemetryEnabled`, `inTelemetryDebugMode`, `hasFileConfig`,
`dataWarehouseUrl`, `GB_SDK_ID`, build metadata). -/
structure Env where
  isCloud : Bool
  isTelemetryEnabled : Bool
  inTelemetryDebugMode : Bool
  hasFileConfigFlag : Bool
  dataWarehouseUrl : Option String
  gbSdkId : String
  build : GrowthBookBuild

/-- The `DataWarehouseTrackedEvent` body.  `properties` keeps the
`JSON.stringify(trackProps)` payload in structured form. -/
structure DataWarehouseTrackedEvent where
  event_name : String
  properties : List (String × JsValue)
  device_id : String
  page_id : String
  session_id : String
  sdk_language : String
  sdk_version : String
  url : String
  user_id : Option String
  user_attributes_json : String
deriving DecidableEq

/-- Cookie expiry attribute passed to `Cookies.set`. -/
inductive CookieExpiry where
  | days : Nat → CookieExpiry
  | minutesFromNow : Nat → CookieExpiry
deriving DecidableEq

/-- Observable side effects of the tracking module: a cookie write (name,
value, expiry, sameSite), the warehouse POST, jitsu client creation, and a
jitsu `.track` call. -/
inductive Effect where
  | cookieSet : String → String → CookieExpiry → String → Effect
  | dwPost : String → DataWarehouseTrackedEvent → Effect
  | jitsuInit : Effect
  | jitsuTrack : String → List (String × JsValue) → Effect
deriving DecidableEq

/-- Mutable browser-process state touched by track.ts: the cookie jar, the
module-level `pageIds` map keyed by `window.history.state.key`, the lazy
`jitsu` client handle, and the uuid-generator counter. -/
structure BrowserState where
  cookies : List (String × String)
  pageIds : List (String × String)
  historyKey : String
  jitsu : Bool
  uuidCounter : Nat
deriving DecidableEq

def DEVICE_ID_COOKIE : String := "gb_device_id"
def SESSION_ID_COOKIE : String := "gb_session_id"

/-- Draw the next token from the uuid stream. -/
def freshUuid (uuidGen : Nat → String) (st : BrowserState) :
    String × BrowserState :=
  (uuidGen st.uuidCounter, { st with uuidCounter := st.uuidCounter + 1 })

/-- Models `Cookies.get(name) || uuidv4()`: reuse a truthy cookie value, otherwise
generate (short-circuit, so no token is consumed when the cookie is set). -/
def cookieOrFresh (uuidGen : Nat → String) (st : BrowserState) (name : String) :
    String × BrowserState :=
  match assocGet st.cookies name with
  | some v => if v = "" then freshUuid uuidGen st else (v, st)
  | none => freshUuid uuidGen st

/-- Embedding of `getOrGenerateDeviceId`: read-or-generate, then persist with
a 365-day expiry and strict same-site policy. -/
def getOrGenerateDeviceId (uuidGen : Nat → String) (st : BrowserState) :
    String × BrowserState × List Effect :=
  let p := cookieOrFresh uuidGen st DEVICE_ID_COOKIE
  (p.1,
   { p.2 with cookies := assocSet p.2.cookies DEVICE_ID_COOKIE p.1 },
   [Effect.cookieSet DEVICE_ID_COOKIE p.1 (CookieExpiry.days 365) "strict"])

/-- Embedding of `getOrGeneratePageId`: cached per navigation-history key in
the module-level map, generated on first sight. -/
def getOrGeneratePageId (uuidGen : Nat → String) (st : BrowserState) :
    String × BrowserState :=
  match assocGet st.pageIds st.historyKey with
  | some v => (v, st)
  | none =>
    let u := uuidGen st.uuidCounter
    (u, { st with pageIds := assocSet st.pageIds st.historyKey u,
                  uuidCounter := st.uuidCounter + 1 })

/-- Embedding of `getOrGenerateSessionId`: read-or-generate, then persist
with a rolling 30-minute expiry and strict same-site policy. -/
def getOrGenerateSessionId (uuidGen : Nat → String) (st : BrowserState) :
    String × BrowserState × List Effect :=
  let p := cookieOrFresh uuidGen st SESSION_ID_COOKIE
  (p.1,
   { p.2 with cookies := assocSet p.2.cookies SESSION_ID_COOKIE p.1 },
   [Effect.cookieSet SESSION_ID_COOKIE p.1 (CookieExpiry.minutesFromNow 30) "strict"])

/-- The hostname mask of `track`: `location.hostname.match(/(localhost|127\.0\.0\.1)/i)`
wins, then the cloud flag decides between `cloud` and `self-hosted`. -/
def maskedHost (env : Env) (loc : Location) : String :=
  let isLocalhost :=
    strContainsCI loc.hostname "localhost" || strContains loc.hostname "127.0.0.1"
  if isLocalhost then "localhost"
  else if env.isCloud then "cloud" else "self-hosted"

/-- The sanitized `url` property: protocol, masked host, pathname. -/
def trackUrl (env : Env) (loc : Location) : String :=
  loc.protocol ++ "//" ++ maskedHost env loc ++ loc.pathname

/-- The `trackProps` object literal of `track`: the caller-supplied spread
followed by the derived fields, which therefore override on lookup. -/
def buildTrackProps (env : Env) (md5 : String → String) (loc : Location)
    (referrer : String) (currentUser : Option CurrentUser)
    (props : List (String × JsValue)) : List (String × JsValue) :=
  let org := currentUser.bind (fun u => u.org)
  let id := currentUser.bind (fun u => u.id)
  let role := currentUser.bind (fun u => u.role)
  let effectiveAccountPlan := currentUser.bind (fun u => u.effectiveAccountPlan)
  let orgCreationDate := currentUser.bind (fun u => u.orgCreationDate)
  props ++
    [("page_url", JsValue.str loc.pathname),
     ("page_title", JsValue.str ""),
     ("source_ip", JsValue.str ""),
     ("url", JsValue.str (trackUrl env loc)),
     ("doc_host", JsValue.str (maskedHost env loc)),
     ("doc_search", JsValue.str ""),
     ("doc_path", JsValue.str loc.pathname),
     ("referer",
       JsValue.str (if strContains referrer "weblens.ai" then referrer else "")),
     ("build_sha", JsValue.str env.build.sha),
     ("build_date", JsValue.str env.build.date),
     ("build_version", JsValue.str env.build.lastVersion),
     ("account_plan", optVal effectiveAccountPlan),
     ("org_creation_date", optVal orgCreationDate),
     ("configFile", JsValue.bool env.hasFileConfigFlag),
     ("role", if truthyStr id then optVal role else JsValue.str ""),
     ("org_hash", JsValue.str (if truthyStr org then md5 (org.getD "") else "")),
     ("user_id_hash", JsValue.str (if truthyStr id then md5 (id.getD "") else "")),
     ("user_id", if env.isCloud then optVal id else JsValue.str ""),
     ("org", if env.isCloud then optVal org else JsValue.str "")]

/-- Embedding of `dataWareHouseTrack`: a fire-and-forget POST, skipped when
`dataWarehouseUrl` is falsy (unset or empty). -/
def dataWareHouseTrack (env : Env) (event : DataWarehouseTrackedEvent) :
    List Effect :=
  if truthyStr env.dataWarehouseUrl then
    [Effect.dwPost
      ((env.dataWarehouseUrl.getD "") ++ "/track?client_key=" ++ env.gbSdkId)
      event]
  else []

/-- Embedding of `track(event, props)`.  Returns the updated browser state
and the list of emitted side effects, in program order: device cookie write,
session cookie write, warehouse POST (if configured), jitsu creation (lazy)
and jitsu track call (if telemetry is enabled).  Outside a browser context
(`hasWindow = false`) nothing happens. -/
def track (env : Env) (md5 : String → String) (uuidGen : Nat → String)
    (hasWindow : Bool) (loc : Location) (referrer : String)
    (currentUser : Option CurrentUser) (event : String)
    (props : List (String × JsValue)) (st : BrowserState) :
    BrowserState × List Effect :=
  if hasWindow then
    let trackProps := buildTrackProps env md5 loc referrer currentUser props
    let dev := getOrGenerateDeviceId uuidGen st
    let pg := getOrGeneratePageId uuidGen dev.2.1
    let sess := getOrGenerateSessionId uuidGen pg.2
    let dwEffs := dataWareHouseTrack env
      { event_name := event
        properties := trackProps
        device_id := dev.1
        page_id := pg.1
        session_id := sess.1
        sdk_language := "react"
        sdk_version := "1.2.0"
        url := trackUrl env loc
        user_id := currentUser.bind (fun u => u.id)
        user_attributes_json := "\x7b\x7d" }
    let preEffs := dev.2.2 ++ sess.2.2 ++ dwEffs
    if env.isTelemetryEnabled then
      if sess.2.1.jitsu then
        (sess.2.1, preEffs ++ [Effect.jitsuTrack event trackProps])
      else
        ({ sess.2.1 with jitsu := true },
         preEffs ++ [Effect.jitsuInit, Effect.jitsuTrack event trackProps])
    else (sess.2.1, preEffs)
  else (st, [])

/-- A configured exposure query of a datasource. -/
structure ExposureQuery where
  id : String
deriving DecidableEq

/-- Models `datasource.settings.queries?.exposure`: `none` models an absent
`queries` object or an absent `exposure` list. -/
structure DataSourceSettings where
  exposure : Option (List ExposureQuery)
deriving DecidableEq

structure DataSource where
  settings : DataSourceSettings
deriving DecidableEq

/-- The experiment fields read by the update handler. -/
structure Experiment where
  id : String
  trackingKey : String
  datasource : String
  exposureQueryId : String
deriving DecidableEq

/-- The request-body fields the handler inspects; `none` models an absent or
`null` field (JS `!= null`). -/
structure UpdateExperimentBody where
  project : Option String
  assignmentQueryId : Option String
  trackingKey : Option String
deriving DecidableEq

/-- External collaborators of the handler (models, permissions, data layer),
abstracted as functions of the request context. -/
structure UpdateContext where
  getExperimentById : String → Option Experiment
  projectExists : String → Bool
  canUpdateExperiment : Experiment → UpdateExperimentBody → Bool
  getDataSourceById : String → Option DataSource
  getExperimentByTrackingKey : String → Option Experiment
  updateExperimentToDb : Experiment → UpdateExperimentBody → Option Experiment

/-- Handler result: a thrown error message or the updated experiment. -/
inductive UResult where
  | err : String → UResult
  | ok : Experiment → UResult
deriving DecidableEq

/-- Handler outcome plus which data-layer operations were invoked. -/
structure UpdateOutcome where
  result : UResult
  dbUpdateCalled : Bool
  trackingKeyLookupCalled : Bool
deriving DecidableEq

/-- Models `datasource.settings.queries?.exposure?.some((q) => q.id === a)` with JS
optional chaining: an absent list matches nothing. -/
def exposureQueryMatches (ds : DataSource) (a : String) : Bool :=
  match ds.settings.exposure with
  | some qs => qs.any (fun q => q.id == a)
  | none => false

/-- The assignment-query validation block of `updateExperiment`: `some msg`
means the handler throws with that message. -/
def checkAssignmentQuery (body : UpdateExperimentBody) (experiment : Experiment)
    (datasource : DataSource) : Option String :=
  match body.assignmentQueryId with
  | none => none
  | some a =>
    if a = experiment.exposureQueryId then none
    else if exposureQueryMatches datasource a then none
    else some ("Unrecognized assignment query ID: " ++ a)

/-- The tracking-key uniqueness block of `updateExperiment`: the optional
error and whether `getExperimentByTrackingKey` was invoked. -/
def checkTrackingKey (ctx : UpdateContext) (body : UpdateExperimentBody)
    (experiment : Experiment) : Option String × Bool :=
  match body.trackingKey with
  | none => (none, false)
  | some tk =>
    if tk = experiment.trackingKey then (none, false)
    else
      match ctx.getExperimentByTrackingKey tk with
      | some _ => (some ("Experiment with tracking key already exists: " ++ tk), true)
      | none => (none, true)

/-- Embedding of the `updateExperiment` API handler.  The project-existence
and permission failure messages are modelled from the spec (steps 2 and 3 of
the handler state machine): `ensureProjectsExist` and
`throwPermissionError` live outside this excerpt. -/
def updateExperiment (ctx : UpdateContext) (eid : String)
    (body : UpdateExperimentBody) : UpdateOutcome :=
  match ctx.getExperimentById eid with
  | none => ⟨UResult.err "Could not find the experiment to update", false, false⟩
  | some experiment =>
    if truthyStr body.project && !(ctx.projectExists (body.project.getD "")) then
      ⟨UResult.err "Could not find project", false, false⟩
    else if !(ctx.canUpdateExperiment experiment body) then
      ⟨UResult.err "Permission denied", false, false⟩
    else
      match ctx.getDataSourceById experiment.datasource with
      | none => ⟨UResult.err "No datasource for this experiment was found.", false, false⟩
      | some datasource =>
        match checkAssignmentQuery body experiment datasource with
        | some msg => ⟨UResult.err msg, false, false⟩
        | none =>
          let tk := checkTrackingKey ctx body experiment
          match tk.1 with
          | some msg => ⟨UResult.err msg, false, tk.2⟩
          | none =>
            match ctx.updateExperimentToDb experiment body with
            | none => ⟨UResult.err "Error happened during updating experiment.", true, tk.2⟩
            | some updated => ⟨UResult.ok updated, true, tk.2⟩

/-! ### Concrete instances used to evaluate the embedding -/

def md5Ex : String → String := fun s => "md5-" ++ s

def uuidEx : Nat → String := fun n => "uuid-" ++ toString n

def uuidConstEx : Nat → String := fun _ => "tok-w"

def locEx : Location := ⟨"https:", "app.example.com", "/home"⟩

def locLocalEx : Location := ⟨"https:", "LocalHost", "/p"⟩

def userEx : CurrentUser := ⟨some "u_123", some "org_9", some "admin", none, none⟩

def st0 : BrowserState := ⟨[], [], "k0", false, 0⟩

def buildEx : GrowthBookBuild := ⟨"sha1", "2024-01-01", "v1"⟩

def envNonCloudDW : Env :=
  ⟨false, false, false, false, some "https://dw.example.com", "sdk", buildEx⟩

def envCloudTel : Env :=
  ⟨true, true, false, false, some "https://dw.example.com", "sdk", buildEx⟩

def envNoDWTel : Env := ⟨false, true, false, false, none, "sdk", buildEx⟩

def expEx : Experiment := ⟨"exp_1", "key_a", "ds_1", "q_1"⟩

def expOtherEx : Experiment := ⟨"exp_2", "key_b", "ds_1", "q_1"⟩

def dsEx : DataSource := ⟨⟨some [⟨"q_1"⟩, ⟨"q_2"⟩]⟩⟩

def ctxEx : UpdateContext :=
  { getExperimentById := fun i => if i = "exp_1" then some expEx else none
    projectExists := fun _ => true
    canUpdateExperiment := fun _ _ => true
    getDataSourceById := fun d => if d = "ds_1" then some dsEx else none
    getExperimentByTrackingKey := fun k => if k = "key_b" then some expOtherEx else none
    updateExperimentToDb := fun e _ => some e }

def bodyDupTkEx : UpdateExperimentBody := ⟨none, none, some "key_b"⟩

def bodyBadAqEx : UpdateExperimentBody := ⟨none, some "q_x", none⟩

end GrowthBook

namespace GrowthBook

/-! ### Helper lemmas -/

theorem assocGet_assocSet_self (cs : List (String × String)) (n v : String) :
    assocGet (assocSet cs n v) n = some v := by
  induction cs with
  | nil => simp [assocGet, assocSet]
  | cons hd tl ih =>
    cases hd with
    | mk k0 v0 =>
      by_cases h : k0 = n <;> simp [assocGet, assocSet, h, ih]

theorem lookupLast_append (l1 l2 : List (String × JsValue)) (k : String) :
    lookupLast (l1 ++ l2) k =
      match lookupLast l2 k with
      | some v => some v
      | none => lookupLast l1 k := by
  induction l1 with
  | nil => cases h : lookupLast l2 k <;> simp [lookupLast, h]
  | cons hd tl ih =>
    cases hd with
    | mk k0 v0 =>
      have hstep : lookupLast ((k0, v0) :: tl ++ l2) k =
          match lookupLast (tl ++ l2) k with
          | some v => some v
          | none => if k0 = k then some v0 else none := rfl
      rw [hstep, ih]
      cases h : lookupLast l2 k with
      | none => rfl
      | some v => rfl

@[simp] theorem cookieOrFresh_jitsu (u : Nat → String) (st : BrowserState)
    (n : String) : (cookieOrFresh u st n).2.jitsu = st.jitsu := by
  unfold cookieOrFresh freshUuid
  cases assocGet st.cookies n with
  | none => rfl
  | some v => by_cases h : v = "" <;> simp [h]

@[simp] theorem cookieOrFresh_pageIds (u : Nat → String) (st : BrowserState)
    (n : String) : (cookieOrFresh u st n).2.pageIds = st.pageIds := by
  unfold cookieOrFresh freshUuid
  cases assocGet st.cookies n with
  | none => rfl
  | some v => by_cases h : v = "" <;> simp [h]

@[simp] theorem cookieOrFresh_historyKey (u : Nat → String) (st : BrowserState)
    (n : String) : (cookieOrFresh u st n).2.historyKey = st.historyKey := by
  unfold cookieOrFresh freshUuid
  cases assocGet st.cookies n with
  | none => rfl
  | some v => by_cases h : v = "" <;> simp [h]

@[simp] theorem cookieOrFresh_cookies (u : Nat → String) (st : BrowserState)
    (n : String) : (cookieOrFresh u st n).2.cookies = st.cookies := by
  unfold cookieOrFresh freshUuid
  cases assocGet st.cookies n with
  | none => rfl
  | some v => by_cases h : v = "" <;> simp [h]

@[simp] theorem getOrGenerateDeviceId_jitsu (u : Nat → String)
    (st : BrowserState) :
    (getOrGenerateDeviceId u st).2.1.jitsu = st.jitsu := by
  simp [getOrGenerateDeviceId]

@[simp] theorem getOrGenerateSessionId_jitsu (u : Nat → String)
    (st : BrowserState) :
    (getOrGenerateSessionId u st).2.1.jitsu = st.jitsu := by
  simp [getOrGenerateSessionId]

@[simp] theorem getOrGeneratePageId_jitsu (u : Nat → String)
    (st : BrowserState) :
    (getOrGeneratePageId u st).2.jitsu = st.jitsu := by
  unfold getOrGeneratePageId
  cases assocGet st.pageIds st.historyKey <;> rfl

@[simp] theorem getOrGenerateDeviceId_effects (u : Nat → String)
    (st : BrowserState) :
    (getOrGenerateDeviceId u st).2.2 =
      [Effect.cookieSet DEVICE_ID_COOKIE (getOrGenerateDeviceId u st).1
        (CookieExpiry.days 365) "strict"] := rfl

@[simp] theorem getOrGenerateSessionId_effects (u : Nat → String)
    (st : BrowserState) :
    (getOrGenerateSessionId u st).2.2 =
      [Effect.cookieSet SESSION_ID_COOKIE (getOrGenerateSessionId u st).1
        (CookieExpiry.minutesFromNow 30) "strict"] := rfl

theorem lookupLast_buildTrackProps_doc_host (env : Env) (md5 : String → String)
    (loc : Location) (referrer : String) (cu : Option CurrentUser)
    (props : List (String × JsValue)) :
    lookupLast (buildTrackProps env md5 loc referrer cu props) "doc_host" =
      some (JsValue.str (maskedHost env loc)) := by
  simp [buildTrackProps, lookupLast_append, lookupLast]

theorem track_jitsu_state (env : Env) (md5 : String → String)
    (uuidGen : Nat → String) (loc : Location) (referrer : String)
    (cu : Option CurrentUser) (event : String)
    (props : List (String × JsValue)) (st : BrowserState) :
    (track env md5 uuidGen true loc referrer cu event props st).1.jitsu =
      (st.jitsu || env.isTelemetryEnabled) := by
  by_cases hT : env.isTelemetryEnabled = true <;>
    by_cases hJ : st.jitsu = true <;>
    simp [track, hT, hJ]

theorem track_jitsuInit_mem (env : Env) (md5 : String → String)
    (uuidGen : Nat → String) (loc : Location) (referrer : String)
    (cu : Option CurrentUser) (event : String)
    (props : List (String × JsValue)) (st : BrowserState) :
    Effect.jitsuInit ∈ (track env md5 uuidGen true loc referrer cu event props st).2 ↔
      (env.isTelemetryEnabled = true ∧ st.jitsu = false) := by
  by_cases hD : truthyStr env.dataWarehouseUrl = true <;>
    by_cases hT : env.isTelemetryEnabled = true <;>
    by_cases hJ : st.jitsu = true <;>
    simp [track, dataWareHouseTrack, hD, hT, hJ]

theorem track_dwPost_mem (env : Env) (md5 : String → String)
    (uuidGen : Nat → String) (loc : Location) (referrer : String)
    (cu : Option CurrentUser) (event : String)
    (props : List (String × JsValue)) (st : BrowserState) :
    (∃ u ev, Effect.dwPost u ev ∈
        (track env md5 uuidGen true loc referrer cu event props st).2) ↔
      truthyStr env.dataWarehouseUrl = true := by
  by_cases hD : truthyStr env.dataWarehouseUrl = true <;>
    by_cases hT : env.isTelemetryEnabled = true <;>
    by_cases hJ : st.jitsu = true <;>
    simp [track, dataWareHouseTrack, hD, hT, hJ]

theorem track_jitsuTrack_mem (env : Env) (md5 : String → String)
    (uuidGen : Nat → String) (loc : Location) (referrer : String)
    (cu : Option CurrentUser) (event : String)
    (props : List (String × JsValue)) (st : BrowserState) :
    (∃ p, Effect.jitsuTrack event p ∈
        (track env md5 uuidGen true loc referrer cu event props st).2) ↔
      env.isTelemetryEnabled = true := by
  by_cases hD : truthyStr env.dataWarehouseUrl = true <;>
    by_cases hT : env.isTelemetryEnabled = true <;>
    by_cases hJ : st.jitsu = true <;>
    simp [track, dataWareHouseTrack, hD, hT, hJ]

theorem track_dwPost_inv (env : Env) (md5 : String → String)
    (uuidGen : Nat → String) (loc : Location) (referrer : String)
    (cu : Option CurrentUser) (event : String)
    (props : List (String × JsValue)) (st : BrowserState) (u : String)
    (ev : DataWarehouseTrackedEvent)
    (h : Effect.dwPost u ev ∈
      (track env md5 uuidGen true loc referrer cu event props st).2) :
    ev.properties = buildTrackProps env md5 loc referrer cu props ∧
      ev.user_id = cu.bind (fun x => x.id) ∧ ev.event_name = event := by
  revert h
  by_cases hD : truthyStr env.dataWarehouseUrl = true <;>
    by_cases hT : env.isTelemetryEnabled = true <;>
    by_cases hJ : st.jitsu = true <;>
    simp [track, dataWareHouseTrack, hD, hT, hJ] <;>
    (rintro rfl rfl; simp)

theorem track_jitsuTrack_inv (env : Env) (md5 : String → String)
    (uuidGen : Nat → String) (loc : Location) (referrer : String)
    (cu : Option CurrentUser) (event : String)
    (props : List (String × JsValue)) (st : BrowserState) (e : String)
    (p : List (String × JsValue))
    (h : Effect.jitsuTrack e p ∈
      (track env md5 uuidGen true loc referrer cu event props st).2) :
    e = event ∧ p = buildTrackProps env md5 loc referrer cu props := by
  revert h
  by_cases hD : truthyStr env.dataWarehouseUrl = true <;>
    by_cases hT : env.isTelemetryEnabled = true <;>
    by_cases hJ : st.jitsu = true <;>
    simp [track, dataWareHouseTrack, hD, hT, hJ]

theorem getOrGenerateDeviceId_cookie (u : Nat → String) (st : BrowserState) :
    assocGet (getOrGenerateDeviceId u st).2.1.cookies DEVICE_ID_COOKIE =
      some (getOrGenerateDeviceId u st).1 := by
  simp [getOrGenerateDeviceId, assocGet_assocSet_self]

theorem getOrGenerateDeviceId_ne_empty (u : Nat → String) (st : BrowserState)
    (hne : ∀ n, u n ≠ "") : (getOrGenerateDeviceId u st).1 ≠ "" := by
  unfold getOrGenerateDeviceId cookieOrFresh freshUuid
  cases h : assocGet st.cookies DEVICE_ID_COOKIE with
  | none => exact hne _
  | some v =>
    by_cases hv : v = ""
    · simp only [hv, if_pos]
      exact hne st.uuidCounter
    · simp [hv]

theorem getOrGenerateDeviceId_read (u : Nat → String) (st : BrowserState)
    (v : String) (hv : v ≠ "")
    (h : assocGet st.cookies DEVICE_ID_COOKIE = some v) :
    (getOrGenerateDeviceId u st).1 = v ∧
      (getOrGenerateDeviceId u st).2.1.uuidCounter = st.uuidCounter := by
  constructor <;> simp [getOrGenerateDeviceId, cookieOrFresh, h, hv]

theorem buildTrackProps_privacy (env : Env) (md5 : String → String)
    (loc : Location) (referrer : String) (cu : Option CurrentUser)
    (props : List (String × JsValue)) :
    lookupLast (buildTrackProps env md5 loc referrer cu props) "page_title" =
        some (JsValue.str "") ∧
      lookupLast (buildTrackProps env md5 loc referrer cu props) "source_ip" =
        some (JsValue.str "") ∧
      lookupLast (buildTrackProps env md5 loc referrer cu props) "doc_search" =
        some (JsValue.str "") ∧
      lookupLast (buildTrackProps env md5 loc referrer cu props) "page_url" =
        some (JsValue.str loc.pathname) ∧
      lookupLast (buildTrackProps env md5 loc referrer cu props) "doc_path" =
        some (JsValue.str loc.pathname) := by
  refine ⟨?_, ?_, ?_, ?_, ?_⟩ <;> simp [buildTrackProps, lookupLast_append, lookupLast]

/-! ### Claim theorems -/

/-- C4: `parseSnapshotDimension` is a pure function classifying a dimension
string by prefix: empty gives `none`/`""`; a `pre:` prefix gives
`predefined` with the prefix stripped; an `exp:` prefix gives `experiment`
with the md5 of the rest; anything else gives `user` with the md5 of the
whole string. -/
theorem parseSnapshotDimension_spec (md5 : String → String) (d : String) :
    (d = "" → parseSnapshotDimension md5 d = ⟨"none", ""⟩) ∧
    (strTake d 4 = "pre:" →
      parseSnapshotDimension md5 d = ⟨"predefined", strDrop d 4⟩) ∧
    (strTake d 4 = "exp:" →
      parseSnapshotDimension md5 d = ⟨"experiment", md5 (strDrop d 4)⟩) ∧
    (d ≠ "" → strTake d 4 ≠ "pre:" → strTake d 4 ≠ "exp:" →
      parseSnapshotDimension md5 d = ⟨"user", md5 d⟩) := by
  refine ⟨fun h => ?_, fun h => ?_, fun h => ?_, fun h1 h2 h3 => ?_⟩
  · simp [parseSnapshotDimension, h]
  · have hne : d ≠ "" := by
      intro he; rw [he] at h; exact absurd h (by decide)
    simp [parseSnapshotDimension, hne, h]
  · have hne : d ≠ "" := by
      intro he; rw [he] at h; exact absurd h (by decide)
    have hpre : strTake d 4 ≠ "pre:" := by rw [h]; decide
    simp [parseSnapshotDimension, hne, hpre, h]
  · simp [parseSnapshotDimension, h1, h2, h3]

/-- Witness for `parseSnapshotDimension_spec` at concrete inputs. -/
theorem parseSnapshotDimension_spec_witness :
    parseSnapshotDimension (fun s => "#" ++ s) "pre:abc" = ⟨"predefined", "abc"⟩ ∧
    parseSnapshotDimension (fun s => "#" ++ s) "exp:xyz" = ⟨"experiment", "#xyz"⟩ ∧
    parseSnapshotDimension (fun s => "#" ++ s) "" = ⟨"none", ""⟩ ∧
    parseSnapshotDimension (fun s => "#" ++ s) "foo" = ⟨"user", "#foo"⟩ := by
  refine ⟨?_, ?_, ?_, ?_⟩
  · exact (parseSnapshotDimension_spec (fun s => "#" ++ s) "pre:abc").2.1 (by decide)
  · exact (parseSnapshotDimension_spec (fun s => "#" ++ s) "exp:xyz").2.2.1 (by decide)
  · exact (parseSnapshotDimension_spec (fun s => "#" ++ s) "").1 rfl
  · exact (parseSnapshotDimension_spec (fun s => "#" ++ s) "foo").2.2.2
      (by decide) (by decide) (by decide)

/-- C8: outside a browser execution context (`hasWindow = false`, i.e.
server-side rendering), `track` performs no side effect at all: cookies,
page-id map, uuid counter and jitsu handle are unchanged and no network
request or client creation is emitted. -/
theorem track_ssr_noop (env : Env) (md5 : String → String)
    (uuidGen : Nat → String) (loc : Location) (referrer : String)
    (cu : Option CurrentUser) (event : String)
    (props : List (String × JsValue)) (st : BrowserState) :
    track env md5 uuidGen false loc referrer cu event props st = (st, []) := rfl

/-- C5: in a browser context, the warehouse POST is attempted iff the
warehouse URL is configured (truthy), independently of the telemetry flag;
the event is forwarded to the jitsu client iff telemetry is enabled; the
client is created lazily at most once (on the first telemetry-enabled call
with no existing handle) and reused afterwards. -/
theorem track_dispatch_conditions (env : Env) (md5 : String → String)
    (uuidGen : Nat → String) (loc : Location) (referrer : String)
    (cu : Option CurrentUser) (event : String)
    (props : List (String × JsValue)) (st : BrowserState) :
    ((∃ u ev, Effect.dwPost u ev ∈
        (track env md5 uuidGen true loc referrer cu event props st).2) ↔
      truthyStr env.dataWarehouseUrl = true) ∧
    ((∃ p, Effect.jitsuTrack event p ∈
        (track env md5 uuidGen true loc referrer cu event props st).2) ↔
      env.isTelemetryEnabled = true) ∧
    (Effect.jitsuInit ∈
        (track env md5 uuidGen true loc referrer cu event props st).2 ↔
      (env.isTelemetryEnabled = true ∧ st.jitsu = false)) ∧
    (track env md5 uuidGen true loc referrer cu event props st).1.jitsu =
      (st.jitsu || env.isTelemetryEnabled) ∧
    (∀ event2 props2, env.isTelemetryEnabled = true →
      Effect.jitsuInit ∉
        (track env md5 uuidGen true loc referrer cu event2 props2
          (track env md5 uuidGen true loc referrer cu event props st).1).2) := by
  refine ⟨track_dwPost_mem env md5 uuidGen loc referrer cu event props st,
    track_jitsuTrack_mem env md5 uuidGen loc referrer cu event props st,
    track_jitsuInit_mem env md5 uuidGen loc referrer cu event props st,
    track_jitsu_state env md5 uuidGen loc referrer cu event props st,
    fun event2 props2 hT hmem => ?_⟩
  have h := (track_jitsuInit_mem env md5 uuidGen loc referrer cu event2 props2
    (track env md5 uuidGen true loc referrer cu event props st).1).mp hmem
  have hj := h.2
  rw [track_jitsu_state env md5 uuidGen loc referrer cu event props st] at hj
  simp [hT] at hj

/-- Witness for `track_dispatch_conditions`: with telemetry enabled and no
warehouse URL, a fresh browser state gets a jitsu client created. -/
theorem track_dispatch_conditions_witness :
    Effect.jitsuInit ∈
      (track envNoDWTel md5Ex uuidEx true locEx "" (some userEx) "e" [] st0).2 := by
  exact (track_dispatch_conditions envNoDWTel md5Ex uuidEx locEx ""
    (some userEx) "e" [] st0).2.2.1.mpr ⟨rfl, rfl⟩

/-- C6: the host component used in the dispatched `url` and `doc_host`
properties is exactly one of `localhost`, `cloud`, `self-hosted`:
`localhost` whenever the hostname matches localhost or 127.0.0.1 (taking
precedence over the cloud check), otherwise `cloud` in cloud mode and
`self-hosted` otherwise. -/
theorem track_host_masking (env : Env) (md5 : String → String)
    (loc : Location) (referrer : String) (cu : Option CurrentUser)
    (props : List (String × JsValue)) :
    (maskedHost env loc = "localhost" ∨ maskedHost env loc = "cloud" ∨
      maskedHost env loc = "self-hosted") ∧
    ((strContainsCI loc.hostname "localhost" ||
        strContains loc.hostname "127.0.0.1") = true →
      maskedHost env loc = "localhost") ∧
    ((strContainsCI loc.hostname "localhost" ||
        strContains loc.hostname "127.0.0.1") = false →
      maskedHost env loc = (if env.isCloud then "cloud" else "self-hosted")) ∧
    lookupLast (buildTrackProps env md5 loc referrer cu props) "doc_host" =
      some (JsValue.str (maskedHost env loc)) ∧
    lookupLast (buildTrackProps env md5 loc referrer cu props) "url" =
      some (JsValue.str (loc.protocol ++ "//" ++ maskedHost env loc ++ loc.pathname)) := by
  refine ⟨?_, fun h => ?_, fun h => ?_,
    lookupLast_buildTrackProps_doc_host env md5 loc referrer cu props, ?_⟩
  · by_cases h : (strContainsCI loc.hostname "localhost" ||
        strContains loc.hostname "127.0.0.1") = true
    · simp [maskedHost, h]
    · by_cases hc : env.isCloud = true <;> simp [maskedHost, h, hc]
  · simp [maskedHost, h]
  · simp [maskedHost, h]
  · simp [buildTrackProps, lookupLast_append, lookupLast, trackUrl]

/-- Witness for `track_host_masking`: a mixed-case localhost hostname is
masked to `localhost` even in cloud mode. -/
theorem track_host_masking_witness :
    maskedHost envCloudTel locLocalEx = "localhost" := by
  exact (track_host_masking envCloudTel md5Ex locLocalEx "" none []).2.1 (by decide)

/-- C7: the dispatched `referer` property equals the document referrer when
it matches the weblens.ai allow-list pattern and is the empty string in
every other case. -/
theorem track_referer_allowlist (env : Env) (md5 : String → String)
    (loc : Location) (referrer : String) (cu : Option CurrentUser)
    (props : List (String × JsValue)) :
    (strContains referrer "weblens.ai" = true →
      lookupLast (buildTrackProps env md5 loc referrer cu props) "referer" =
        some (JsValue.str referrer)) ∧
    (strContains referrer "weblens.ai" = false →
      lookupLast (buildTrackProps env md5 loc referrer cu props) "referer" =
        some (JsValue.str "")) := by
  constructor <;> intro h <;>
    simp [buildTrackProps, lookupLast_append, lookupLast, h]

/-- Witness for `track_referer_allowlist`: an allow-listed referrer passes
through; a different domain is blanked. -/
theorem track_referer_allowlist_witness :
    lookupLast (buildTrackProps envCloudTel md5Ex locEx "https://weblens.ai/page"
        none []) "referer" = some (JsValue.str "https://weblens.ai/page") ∧
    lookupLast (buildTrackProps envCloudTel md5Ex locEx "https://evil.example.com"
        none []) "referer" = some (JsValue.str "") := by
  constructor
  · exact (track_referer_allowlist envCloudTel md5Ex locEx
      "https://weblens.ai/page" none []).1 (by decide)
  · exact (track_referer_allowlist envCloudTel md5Ex locEx
      "https://evil.example.com" none []).2 (by decide)

/-- C10: every dispatched payload (the property bag of the warehouse event and
the jitsu property bag) has `page_title`, `source_ip` and `doc_search` equal
to the empty string and `page_url`/`doc_path` equal to the location pathname
only, regardless of the caller-supplied properties. -/
theorem track_privacy_invariant (env : Env) (md5 : String → String)
    (uuidGen : Nat → String) (loc : Location) (referrer : String)
    (cu : Option CurrentUser) (event : String)
    (props : List (String × JsValue)) (st : BrowserState) :
    ∀ eff, eff ∈ (track env md5 uuidGen true loc referrer cu event props st).2 →
      (∀ u ev, eff = Effect.dwPost u ev →
        lookupLast ev.properties "page_title" = some (JsValue.str "") ∧
        lookupLast ev.properties "source_ip" = some (JsValue.str "") ∧
        lookupLast ev.properties "doc_search" = some (JsValue.str "") ∧
        lookupLast ev.properties "page_url" = some (JsValue.str loc.pathname) ∧
        lookupLast ev.properties "doc_path" = some (JsValue.str loc.pathname)) ∧
      (∀ e p, eff = Effect.jitsuTrack e p →
        lookupLast p "page_title" = some (JsValue.str "") ∧
        lookupLast p "source_ip" = some (JsValue.str "") ∧
        lookupLast p "doc_search" = some (JsValue.str "") ∧
        lookupLast p "page_url" = some (JsValue.str loc.pathname) ∧
        lookupLast p "doc_path" = some (JsValue.str loc.pathname)) := by
  intro eff hmem
  constructor
  · rintro u ev rfl
    have h := track_dwPost_inv env md5 uuidGen loc referrer cu event props st u ev hmem
    rw [h.1]
    exact buildTrackProps_privacy env md5 loc referrer cu props
  · rintro e p rfl
    have h := track_jitsuTrack_inv env md5 uuidGen loc referrer cu event props st e p hmem
    rw [h.2]
    exact buildTrackProps_privacy env md5 loc referrer cu props

/-- Witness for `track_privacy_invariant`: a caller-supplied `page_title` is
overridden to the empty string in the jitsu payload. -/
theorem track_privacy_invariant_witness :
    lookupLast (buildTrackProps envCloudTel md5Ex locEx "" (some userEx)
        [("page_title", JsValue.str "SECRET")]) "page_title" =
      some (JsValue.str "") := by
  have hmem : Effect.jitsuTrack "e"
      (buildTrackProps envCloudTel md5Ex locEx "" (some userEx)
        [("page_title", JsValue.str "SECRET")]) ∈
      (track envCloudTel md5Ex uuidEx true locEx "" (some userEx) "e"
        [("page_title", JsValue.str "SECRET")] st0).2 := by decide
  exact ((track_privacy_invariant envCloudTel md5Ex uuidEx locEx ""
    (some userEx) "e" [("page_title", JsValue.str "SECRET")] st0 _ hmem).2
    _ _ rfl).1

/-- C1 fails as stated: in a non-cloud deployment with a configured
warehouse URL and a logged-in user, the data-warehouse event body carries
the unhashed user id in its top-level `user_id` field. -/
theorem track_unhashed_user_id_counterexample :
    envNonCloudDW.isCloud = false ∧
    ((track envNonCloudDW md5Ex uuidEx true locEx "" (some userEx) "evt" []
        st0).2.any
      (fun eff =>
        match eff with
        | Effect.dwPost _ ev => ev.user_id == some "u_123"
        | _ => false)) = true := by
  exact ⟨rfl, by decide⟩

/-- C1 (amended): the dispatched property bag always carries the hashed
user/org identifiers, and carries them unhashed only in cloud mode; however
the top-level `user_id` field of the data-warehouse event body carries the
unhashed user id whenever a user is logged in, in every deployment mode. -/
theorem track_identifier_hashing (env : Env) (md5 : String → String)
    (uuidGen : Nat → String) (loc : Location) (referrer : String)
    (cu : Option CurrentUser) (event : String)
    (props : List (String × JsValue)) (st : BrowserState) :
    lookupLast (buildTrackProps env md5 loc referrer cu props) "org_hash" =
      some (JsValue.str (if truthyStr (cu.bind fun x => x.org) then
        md5 ((cu.bind fun x => x.org).getD "") else "")) ∧
    lookupLast (buildTrackProps env md5 loc referrer cu props) "user_id_hash" =
      some (JsValue.str (if truthyStr (cu.bind fun x => x.id) then
        md5 ((cu.bind fun x => x.id).getD "") else "")) ∧
    (env.isCloud = false →
      lookupLast (buildTrackProps env md5 loc referrer cu props) "user_id" =
          some (JsValue.str "") ∧
        lookupLast (buildTrackProps env md5 loc referrer cu props) "org" =
          some (JsValue.str "")) ∧
    (env.isCloud = true →
      lookupLast (buildTrackProps env md5 loc referrer cu props) "user_id" =
          some (optVal (cu.bind fun x => x.id)) ∧
        lookupLast (buildTrackProps env md5 loc referrer cu props) "org" =
          some (optVal (cu.bind fun x => x.org))) ∧
    (∀ u ev, Effect.dwPost u ev ∈
        (track env md5 uuidGen true loc referrer cu event props st).2 →
      ev.user_id = cu.bind fun x => x.id) := by
  refine ⟨?_, ?_, fun h => ⟨?_, ?_⟩, fun h => ⟨?_, ?_⟩, fun u ev hm =>
    (track_dwPost_inv env md5 uuidGen loc referrer cu event props st u ev hm).2.1⟩ <;>
    simp [buildTrackProps, lookupLast_append, lookupLast, *]

/-- Witness for `track_identifier_hashing`: in cloud mode the raw user id is
present in the property bag. -/
theorem track_identifier_hashing_witness :
    lookupLast (buildTrackProps envCloudTel md5Ex locEx "" (some userEx) [])
      "user_id" = some (JsValue.str "u_123") := by
  exact ((track_identifier_hashing envCloudTel md5Ex uuidEx locEx ""
    (some userEx) "e" [] st0).2.2.2.1 rfl).1

/-- C9: `getOrGenerateDeviceId` generates and persists a token with a
365-day strict same-site cookie on first call, and every later call while
the cookie lasts returns the same token from the cookie without drawing a
new one. -/
theorem getOrGenerateDeviceId_idempotent (uuidGen : Nat → String)
    (st : BrowserState) (hne : ∀ n, uuidGen n ≠ "") :
    (assocGet st.cookies DEVICE_ID_COOKIE = none →
      (getOrGenerateDeviceId uuidGen st).1 = uuidGen st.uuidCounter) ∧
    (∀ v, v ≠ "" → assocGet st.cookies DEVICE_ID_COOKIE = some v →
      (getOrGenerateDeviceId uuidGen st).1 = v ∧
        (getOrGenerateDeviceId uuidGen st).2.1.uuidCounter = st.uuidCounter) ∧
    (getOrGenerateDeviceId uuidGen st).2.2 =
      [Effect.cookieSet DEVICE_ID_COOKIE (getOrGenerateDeviceId uuidGen st).1
        (CookieExpiry.days 365) "strict"] ∧
    assocGet (getOrGenerateDeviceId uuidGen st).2.1.cookies DEVICE_ID_COOKIE =
      some (getOrGenerateDeviceId uuidGen st).1 ∧
    (getOrGenerateDeviceId uuidGen
        (getOrGenerateDeviceId uuidGen st).2.1).1 =
      (getOrGenerateDeviceId uuidGen st).1 ∧
    (getOrGenerateDeviceId uuidGen
        (getOrGenerateDeviceId uuidGen st).2.1).2.1.uuidCounter =
      (getOrGenerateDeviceId uuidGen st).2.1.uuidCounter := by
  have hsecond := getOrGenerateDeviceId_read uuidGen
    (getOrGenerateDeviceId uuidGen st).2.1 (getOrGenerateDeviceId uuidGen st).1
    (getOrGenerateDeviceId_ne_empty uuidGen st hne)
    (getOrGenerateDeviceId_cookie uuidGen st)
  refine ⟨fun h => ?_, fun v hv h => getOrGenerateDeviceId_read uuidGen st v hv h,
    rfl, getOrGenerateDeviceId_cookie uuidGen st, hsecond.1, hsecond.2⟩
  simp [getOrGenerateDeviceId, cookieOrFresh, freshUuid, h]

/-- Witness for `getOrGenerateDeviceId_idempotent`: starting from an empty
cookie jar, the first call yields the generated token and the second call
returns the same token without consuming another one. -/
theorem getOrGenerateDeviceId_idempotent_witness :
    (getOrGenerateDeviceId uuidConstEx st0).1 = "tok-w" ∧
    (getOrGenerateDeviceId uuidConstEx
        (getOrGenerateDeviceId uuidConstEx st0).2.1).1 =
      (getOrGenerateDeviceId uuidConstEx st0).1 := by
  have h := getOrGenerateDeviceId_idempotent uuidConstEx st0
    (fun n => by unfold uuidConstEx; decide)
  exact ⟨h.1 rfl, h.2.2.2.2.1⟩

/-- C2: when the request supplies a `trackingKey` that differs from the
current one of the experiment and is already used by an existing experiment, the
handler throws a conflict error naming the duplicate key and the data
layer update operation is never invoked; when the supplied key equals the
current one, the uniqueness lookup itself is never performed. -/
theorem updateExperiment_trackingKey_unique (ctx : UpdateContext)
    (eid : String) (body : UpdateExperimentBody) (exp : Experiment)
    (ds : DataSource)
    (hexp : ctx.getExperimentById eid = some exp)
    (hproj : truthyStr body.project = false ∨
      ctx.projectExists (body.project.getD "") = true)
    (hperm : ctx.canUpdateExperiment exp body = true)
    (hds : ctx.getDataSourceById exp.datasource = some ds)
    (hassign : checkAssignmentQuery body exp ds = none) :
    (∀ tk, body.trackingKey = some tk → tk ≠ exp.trackingKey →
      (ctx.getExperimentByTrackingKey tk).isSome = true →
      (updateExperiment ctx eid body).result =
        UResult.err ("Experiment with tracking key already exists: " ++ tk) ∧
      (updateExperiment ctx eid body).dbUpdateCalled = false) ∧
    (body.trackingKey = some exp.trackingKey →
      (updateExperiment ctx eid body).trackingKeyLookupCalled = false) := by
  have hprojF : (truthyStr body.project &&
      !(ctx.projectExists (body.project.getD ""))) = false := by
    rcases hproj with h | h <;> simp [h]
  constructor
  · intro tk htk hne hdup
    rcases Option.isSome_iff_exists.mp hdup with ⟨other, hother⟩
    have hck : checkTrackingKey ctx body exp =
        (some ("Experiment with tracking key already exists: " ++ tk), true) := by
      simp [checkTrackingKey, htk, hne, hother]
    constructor <;>
      simp [updateExperiment, hexp, hprojF, hperm, hds, hassign, hck]
  · intro htk
    have hck : checkTrackingKey ctx body exp = (none, false) := by
      simp [checkTrackingKey, htk]
    simp only [updateExperiment, hexp, hprojF, Bool.false_eq_true, if_false,
      hperm, Bool.not_true, hds, hassign, hck]
    cases ctx.updateExperimentToDb exp body <;> simp

/-- Witness for `updateExperiment_trackingKey_unique`: updating `exp_1`
(tracking key `key_a`) to the key `key_b` of the existing `exp_2` yields the
conflict error and no database update. -/
theorem updateExperiment_trackingKey_unique_witness :
    (updateExperiment ctxEx "exp_1" bodyDupTkEx).result =
      UResult.err ("Experiment with tracking key already exists: " ++ "key_b") ∧
    (updateExperiment ctxEx "exp_1" bodyDupTkEx).dbUpdateCalled = false := by
  exact (updateExperiment_trackingKey_unique ctxEx "exp_1" bodyDupTkEx expEx dsEx
    (by decide) (Or.inl (by decide)) (by decide) (by decide) (by decide)).1
    "key_b" rfl (by decide) (by decide)

/-- C3: when the request supplies a non-null `assignmentQueryId` differing
from the current `exposureQueryId` of the experiment and matching none of the
configured exposure queries of the datasource, the handler throws the validation
error and the data layer update operation is never invoked; when the
field is absent/null or equal to the current value, the check is skipped
(it can produce no error). -/
theorem updateExperiment_assignmentQuery_valid (ctx : UpdateContext)
    (eid : String) (body : UpdateExperimentBody) (exp : Experiment)
    (ds : DataSource)
    (hexp : ctx.getExperimentById eid = some exp)
    (hproj : truthyStr body.project = false ∨
      ctx.projectExists (body.project.getD "") = true)
    (hperm : ctx.canUpdateExperiment exp body = true)
    (hds : ctx.getDataSourceById exp.datasource = some ds) :
    (∀ a, body.assignmentQueryId = some a → a ≠ exp.exposureQueryId →
      exposureQueryMatches ds a = false →
      (updateExperiment ctx eid body).result =
        UResult.err ("Unrecognized assignment query ID: " ++ a) ∧
      (updateExperiment ctx eid body).dbUpdateCalled = false) ∧
    ((body.assignmentQueryId = none ∨
        body.assignmentQueryId = some exp.exposureQueryId) →
      checkAssignmentQuery body exp ds = none) := by
  have hprojF : (truthyStr body.project &&
      !(ctx.projectExists (body.project.getD ""))) = false := by
    rcases hproj with h | h <;> simp [h]
  constructor
  · intro a ha hne hm
    have hca : checkAssignmentQuery body exp ds =
        some ("Unrecognized assignment query ID: " ++ a) := by
      simp [checkAssignmentQuery, ha, hne, hm]
    constructor <;>
      simp [updateExperiment, hexp, hprojF, hperm, hds, hca]
  · rintro (h | h) <;> simp [checkAssignmentQuery, h]

/-- Witness for `updateExperiment_assignmentQuery_valid`: updating `exp_1`
with the unknown assignment query `q_x` yields the validation error and no
database update. -/
theorem updateExperiment_assignmentQuery_valid_witness :
    (updateExperiment ctxEx "exp_1" bodyBadAqEx).result =
      UResult.err ("Unrecognized assignment query ID: " ++ "q_x") ∧
    (updateExperiment ctxEx "exp_1" bodyBadAqEx).dbUpdateCalled = false := by
  exact (updateExperiment_assignmentQuery_valid ctxEx "exp_1" bodyBadAqEx expEx
    dsEx (by decide) (Or.inl (by decide)) (by decide) (by decide)).1
    "q_x" rfl (by decide) (by decide)

end GrowthBook
